import Mathlib

/-!
Verification of the Zero-Trust FaaS gateway decision pipeline.

Shallow embedding of `src/lambda_function.py`: the request normalizer
(`_auth_header`, `_normalize_path`), the policy-engine client
(`_opa_preflight`, `_opa_eval`) and the decision pipeline
(`lambda_handler`).

External effects (JWT decoding, the JWKS network fetch, `os.stat`, the
policy-engine subprocess) are modelled by an environment record that
fixes the outcome each call would produce; the handler is then a pure,
total function of the event, the configuration, that environment and
the `OPA_OK` process-global flag.  Python exception flow is modelled
with `Except`: each modelled call either returns a value or raises one
of the exception classes the handler's `except` clauses distinguish.
-/

namespace ZTA

/-- JSON-like values, as produced by Python `json.loads` and carried in
JWT claim dictionaries. Numbers are modelled as integers (only their
truthiness and equality to strings matter to the pipeline). -/
inductive JValue where
  | null
  | bool (b : Bool)
  | num (n : Int)
  | str (s : String)
  | arr (xs : List JValue)
  | obj (kvs : List (String × JValue))

/-- Python truthiness `bool(v)` on a JSON value: `None`, `False`, `0`,
`""`, `[]`, `{}` are falsy, everything else truthy. -/
def JValue.truthy : JValue → Bool
  | .null => false
  | .bool b => b
  | .num n => n != 0
  | .str s => s != ""
  | .arr xs => !xs.isEmpty
  | .obj kvs => !kvs.isEmpty

/-- A claims dictionary (JWT payload). -/
abbrev Claims := List (String × JValue)

/-- Python `d.get(k)` on a claims/JSON dictionary. -/
def jGet (kvs : Claims) (k : String) : Option JValue :=
  kvs.lookup k

/-- Truthiness of `d.get(k)`: `None` (missing key) is falsy. -/
def jTruthyOpt : Option JValue → Bool
  | none => false
  | some v => v.truthy

/-- Python `v["k"]` when `v` may not be a dict: `KeyError` /
`TypeError` (i.e. an unclassified exception) is modelled as `none`. -/
def JValue.getKey : JValue → String → Option JValue
  | .obj kvs, k => kvs.lookup k
  | _, _ => none

/-- Python `v[i]` when `v` may not be a list: `IndexError` /
`TypeError` is modelled as `none`. -/
def JValue.getIdx : JValue → Nat → Option JValue
  | .arr xs, i => xs.get? i
  | _, _ => none

/-- Python `d.get(k) == "t"` where the left side is an optional JSON
value: equal exactly when the value is present, is a string, and equals
`t` (Python `==` between a non-string — or `None` — and a `str` is
`False`). -/
def pyEqStr : Option JValue → String → Bool
  | some (.str s), t => s == t
  | _, _ => false

/-- Python `x or y` for an optional string `x` under truthiness:
`None` and `""` fall through to the default. -/
def pyOr (o : Option String) (d : String) : String :=
  match o with
  | some s => if s = "" then d else s
  | none => d

/-- Python `s.startswith(pre)`: `pre` is a character-wise prefix of
`s`. -/
def pyStartsWith (s pre : String) : Bool :=
  pre.data.isPrefixOf s.data

/-- Python slicing `s[n:]`: drop the first `n` characters. -/
def pyDrop (s : String) (n : Nat) : String :=
  ⟨s.data.drop n⟩

/-- Python `len(s)`: the number of characters. -/
def pyLen (s : String) : Nat :=
  s.data.length

/-- Python `s.upper()`, character-wise (the pipeline only upper-cases
HTTP method names, which are ASCII). -/
def pyUpper (s : String) : String :=
  ⟨s.data.map Char.toUpper⟩

/-- The inbound event. `method` stands for
`event.get("requestContext", {}).get("http", {}).get("method")`,
`stage` for `event.get("requestContext", {}).get("stage")`,
`rawPath` for `event.get("rawPath")`; `none` covers both a missing key
and an explicit `None`.  `headers` is `event.get("headers")`. -/
structure Event where
  headers : Option (List (String × String))
  rawPath : Option String
  method : Option String
  stage : Option String
deriving Repr, DecidableEq

/-- Embeds `_auth_header(event)`:
`h = event.get("headers") or {}`;
`return h.get("Authorization") or h.get("authorization") or ""`. -/
def _auth_header (ev : Event) : String :=
  let h := ev.headers.getD []
  pyOr (h.lookup "Authorization") (pyOr (h.lookup "authorization") "")

/-- Embeds `_normalize_path(event)`: method defaults to `"GET"` and is
upper-cased; if the stage is truthy and the raw path starts with
`"/" + stage`, the slice `raw_path[len(stage)+1:]` (or `"/"` if that
slice is empty) is the path, otherwise the raw path (defaulted to
`"/"`) is kept. -/
def _normalize_path (ev : Event) : String × String :=
  let method := pyUpper (pyOr ev.method "GET")
  let raw_path := pyOr ev.rawPath "/"
  let stage := pyOr ev.stage ""
  if stage ≠ "" ∧ pyStartsWith raw_path ("/" ++ stage) then
    let p := pyDrop raw_path (pyLen stage + 1)
    (method, if p = "" then "/" else p)
  else
    (method, raw_path)

/-- The exception classes distinguished by the handler's `except`
clauses: `jwt.ExpiredSignatureError`, `jwt.InvalidTokenError` (carrying
`str(e)`), `subprocess.TimeoutExpired`, and any other `Exception`
(`RuntimeError`, `KeyError`, `json.JSONDecodeError`, network errors,
...). -/
inductive Exc where
  | expiredSignature
  | invalidToken (msg : String)
  | timeoutExpired
  | other (msg : String)
deriving Repr, DecidableEq

/-- Outcomes of the effectful steps inside `_opa_preflight`:
`statMode` is `os.stat(OPA_BIN_PATH).st_mode` (`none` = `OSError`, the
binary is missing); `versionRC` is the return code of `opa version`
(`none` = the 1.5 s `TimeoutExpired`); `policyExists` is
`os.path.exists(OPA_POLICY_PATH)`. -/
structure PreflightEnv where
  statMode : Option Nat
  versionRC : Option Int
  policyExists : Bool

/-- Embeds `_opa_preflight()` acting on the `OPA_OK` global: returns the new
value of `OPA_OK` together with `ok` or the raised exception.  Every
internal failure — including the `TimeoutExpired` of the `opa version`
probe — is caught and re-raised as `RuntimeError("OPA preflight
failed: ...")`, i.e. `Exc.other`; `OPA_OK` is set only on success. -/
def _opa_preflight (opaOK : Bool) (env : PreflightEnv) : Bool × Except Exc Unit :=
  if opaOK then (true, .ok ())
  else
    match env.statMode with
    | none => (false, .error (.other "OPA preflight failed: stat"))
    | some mode =>
      if mode &&& 0o111 == 0 then
        (false, .error (.other "OPA preflight failed: opa/opa is not executable"))
      else
        match env.versionRC with
        | none => (false, .error (.other "OPA preflight failed: TimeoutExpired"))
        | some rc =>
          if rc != 0 then
            (false, .error (.other "OPA preflight failed: opa version rc"))
          else if !env.policyExists then
            (false, .error (.other "OPA preflight failed: policy not found"))
          else
            (true, .ok ())

/-- Outcome of the `subprocess.run` invoking `opa eval`: either the
3.5 s `TimeoutExpired`, or completion with a return code and — for the
case the handler goes on to parse stdout — the result of
`json.loads(stdout)` (`none` = `JSONDecodeError`). -/
inductive OpaRun where
  | timeout
  | completed (returncode : Int) (stdoutJson : Option JValue)

/-- Embeds `out["result"][0]["expressions"][0]["value"]`; `none` models the
`KeyError`/`IndexError`/`TypeError` on a missing or mis-shaped path. -/
def opaResultValue (out : JValue) : Option JValue :=
  ((((out.getKey "result").bind (JValue.getIdx · 0)).bind
      (JValue.getKey · "expressions")).bind (JValue.getIdx · 0)).bind
    (JValue.getKey · "value")

/-- Embeds `_opa_eval(input)`: preflight, then the bounded subprocess call.
Returns the new `OPA_OK` value and either the parsed boolean verdict
`bool(out["result"][0]["expressions"][0]["value"])` or the raised
exception: `TimeoutExpired` propagates as itself; a non-zero return
code raises `RuntimeError` (`Exc.other`); a missing or unparsable
result raises an unclassified exception (`Exc.other`). -/
def _opa_eval (opaOK : Bool) (pre : PreflightEnv) (run : OpaRun) : Bool × Except Exc Bool :=
  match _opa_preflight opaOK pre with
  | (ok1, .error e) => (ok1, .error e)
  | (ok1, .ok ()) =>
    match run with
    | .timeout => (ok1, .error .timeoutExpired)
    | .completed rc stdoutJson =>
      if rc != 0 then (ok1, .error (.other "OPA error rc"))
      else
        match stdoutJson with
        | none => (ok1, .error (.other "json.JSONDecodeError"))
        | some out =>
          match opaResultValue out with
          | none => (ok1, .error (.other "KeyError"))
          | some v => (ok1, .ok v.truthy)

/-- The JSON response bodies the handler can emit, each constructor one
`json.dumps({...})` site.  `invalidToken` carries the `str(e)` embedded
in `"Invalid token: {str(e)}"`; `wrongTokenType` / `clientMismatch`
carry the claim value echoed next to the message; the other failing
bodies are fixed strings. -/
inductive Body where
  | baselineOk (method path : String)
  | missingBearer
  | missingIss
  | tokenExpired
  | invalidToken (msg : String)
  | wrongTokenType (tokenUse : Option JValue)
  | clientMismatch (clientId : Option JValue)
  | deniedByPolicy
  | opaTimeout
  | okClaims (claims : Claims)
  | internalError

/-- The `"message"` field of the body (`""` for the two success bodies,
which carry no `message` key). -/
def Body.message : Body → String
  | .baselineOk _ _ => ""
  | .missingBearer => "Missing Bearer token"
  | .missingIss => "Missing iss claim"
  | .tokenExpired => "Token expired"
  | .invalidToken m => "Invalid token: " ++ m
  | .wrongTokenType _ => "Wrong token type"
  | .clientMismatch _ => "Client mismatch"
  | .deniedByPolicy => "Denied by policy"
  | .opaTimeout => "Denied by policy (OPA timeout)"
  | .okClaims _ => ""
  | .internalError => "Internal error"

/-- The gateway decision: status code and body. -/
structure Response where
  statusCode : Nat
  body : Body

/-- Which downstream stages ran: `verifierCalled` is true once the
token-verification steps (unverified decode onwards) are attempted,
`opaCalled` once `_opa_eval` (and hence the preflight / subprocess
machinery) is entered. -/
structure Trace where
  verifierCalled : Bool
  opaCalled : Bool
deriving Repr, DecidableEq

/-- Process configuration: `APP_CLIENT_ID` and `ZTA_ENFORCE`. -/
structure Config where
  appClientId : String
  ztaEnforce : Bool
deriving Repr, DecidableEq

/-- Outcomes of the per-request external calls:
`unverifiedDecode` is `jwt.decode(token, verify_signature=False)`;
`verify` bundles the JWKS fetch, key selection and the verified
`decode(...)` (its error is the exception any of them raises);
`preflight` and `opaRun` drive the policy-engine client. -/
structure Env where
  unverifiedDecode : Except Exc Claims
  verify : Except Exc Claims
  preflight : PreflightEnv
  opaRun : OpaRun

/-- Result of one handler invocation: the HTTP response, the stage
trace, and the value of the `OPA_OK` global afterwards. -/
structure Outcome where
  response : Response
  trace : Trace
  opaOK : Bool

/-- The handler's `except` clauses: `ExpiredSignatureError → 401`,
`InvalidTokenError → 401` with `str(e)` in the body,
`subprocess.TimeoutExpired → 403`, any other `Exception → 500` with a
fixed body. -/
def excResponse : Exc → Response
  | .expiredSignature => ⟨401, .tokenExpired⟩
  | .invalidToken m => ⟨401, .invalidToken m⟩
  | .timeoutExpired => ⟨403, .opaTimeout⟩
  | .other _ => ⟨500, .internalError⟩

/-- Embeds `lambda_handler(event, context)`.  Baseline passthrough when
enforcement is disabled; otherwise the gate sequence: bearer-prefix
check, unverified issuer parse, signature/issuer/expiry verification,
identity binding (`token_use == "access"`, `client_id ==
APP_CLIENT_ID`), then `_opa_eval`; every raised exception is resolved
by `excResponse`.  The extracted token `auth.split(" ", 1)[1]` is only
ever passed to the modelled JWT calls, so it does not appear
separately. -/
def lambda_handler (cfg : Config) (ev : Event) (env : Env) (opaOK : Bool) : Outcome :=
  if !cfg.ztaEnforce then
    ⟨⟨200, .baselineOk (_normalize_path ev).1 (_normalize_path ev).2⟩, ⟨false, false⟩, opaOK⟩
  else
    if !pyStartsWith (_auth_header ev) "Bearer " then
      ⟨⟨401, .missingBearer⟩, ⟨false, false⟩, opaOK⟩
    else
      match env.unverifiedDecode with
      | .error e => ⟨excResponse e, ⟨true, false⟩, opaOK⟩
      | .ok unverified =>
        if !jTruthyOpt (jGet unverified "iss") then
          ⟨⟨401, .missingIss⟩, ⟨true, false⟩, opaOK⟩
        else
          match env.verify with
          | .error e => ⟨excResponse e, ⟨true, false⟩, opaOK⟩
          | .ok claims =>
            if !pyEqStr (jGet claims "token_use") "access" then
              ⟨⟨401, .wrongTokenType (jGet claims "token_use")⟩, ⟨true, false⟩, opaOK⟩
            else if !pyEqStr (jGet claims "client_id") cfg.appClientId then
              ⟨⟨401, .clientMismatch (jGet claims "client_id")⟩, ⟨true, false⟩, opaOK⟩
            else
              match _opa_eval opaOK env.preflight env.opaRun with
              | (ok1, .error e) => ⟨excResponse e, ⟨true, true⟩, ok1⟩
              | (ok1, .ok allowed) =>
                if !allowed then ⟨⟨403, .deniedByPolicy⟩, ⟨true, true⟩, ok1⟩
                else ⟨⟨200, .okClaims claims⟩, ⟨true, true⟩, ok1⟩

/-! ## Concrete fixtures used by witnesses and counterexamples -/

/-- A claims payload for a well-bound access token of client
`client-1`. -/
def goodClaims : Claims :=
  [("iss", .str "https://issuer.example"), ("token_use", .str "access"),
   ("client_id", .str "client-1")]

/-- Enforcing configuration expecting client `client-1`. -/
def cfgOn : Config := ⟨"client-1", true⟩

/-- An event carrying a well-formed bearer header. -/
def evBearer : Event :=
  ⟨some [("Authorization", "Bearer tok")], some "/items", some "GET", none⟩

/-- A preflight environment where every check passes. -/
def preOK : PreflightEnv := ⟨some 0o755, some 0, true⟩

/-- The OPA success output `{"result":[{"expressions":[{"value": v}]}]}`. -/
def opaOut (v : JValue) : JValue :=
  .obj [("result", .arr [.obj [("expressions", .arr [.obj [("value", v)]])]])]

/-- Environment of a fully successful request: verification succeeds
with `goodClaims` and the engine returns boolean `true`. -/
def envAllow : Env :=
  ⟨.ok goodClaims, .ok goodClaims, preOK, .completed 0 (some (opaOut (.bool true)))⟩

example : opaResultValue (opaOut (.bool true)) = some (.bool true) := rfl
example : _auth_header evBearer = "Bearer tok" := rfl
example : pyStartsWith "Bearer tok" "Bearer " = true := rfl
example : (lambda_handler cfgOn evBearer envAllow true).response.statusCode = 200 := rfl
example : (lambda_handler cfgOn evBearer envAllow false).response.statusCode = 200 := rfl
example : (lambda_handler cfgOn ⟨none, none, none, none⟩ envAllow false).response
    = ⟨401, .missingBearer⟩ := rfl
example : _normalize_path ⟨none, some "/dev/items", some "get", some "dev"⟩
    = ("GET", "/items") := rfl
example : _normalize_path ⟨none, some "/dev", none, some "dev"⟩ = ("GET", "/") := rfl

/-! ## Theorems -/

/-- Every response produced by an `except` clause has status 401, 403
or 500 — never 200. -/
theorem excResponse_status_mem (e : Exc) :
    (excResponse e).statusCode = 401 ∨ (excResponse e).statusCode = 403 ∨
      (excResponse e).statusCode = 500 := by
  cases e <;> simp [excResponse]

/-- C10: the handler is total at its public interface — it is a total
function (never propagates an exception: the `try` block spans the
whole body and `except Exception` is a catch-all) and its status code
is always one of 200, 401, 403, 500. -/
theorem lambda_handler_status_total (cfg : Config) (ev : Event) (env : Env) (opaOK : Bool) :
    (lambda_handler cfg ev env opaOK).response.statusCode = 200 ∨
    (lambda_handler cfg ev env opaOK).response.statusCode = 401 ∨
    (lambda_handler cfg ev env opaOK).response.statusCode = 403 ∨
    (lambda_handler cfg ev env opaOK).response.statusCode = 500 := by
  unfold lambda_handler
  repeat' split
  all_goals try simp
  all_goals (rename_i e _; rcases excResponse_status_mem e with h | h | h <;> simp [h])

/-- C6: with enforcement enabled, a request whose authorization value
does not start with `"Bearer "` (in particular, a missing header) is
answered 401 with the fixed `MissingCredential` body, the token
verifier and all later stages are never invoked, and the `OPA_OK`
global is untouched. -/
theorem missing_bearer_401_no_stages (cfg : Config) (ev : Event) (env : Env) (opaOK : Bool)
    (henf : cfg.ztaEnforce = true)
    (hauth : pyStartsWith (_auth_header ev) "Bearer " = false) :
    lambda_handler cfg ev env opaOK =
      ⟨⟨401, .missingBearer⟩, ⟨false, false⟩, opaOK⟩ := by
  unfold lambda_handler
  simp [henf, hauth]

/-- Witness for C6: a concrete event with no headers at all. -/
theorem missing_bearer_401_no_stages_witness :
    lambda_handler cfgOn ⟨none, none, none, none⟩ envAllow false =
      ⟨⟨401, .missingBearer⟩, ⟨false, false⟩, false⟩ :=
  missing_bearer_401_no_stages cfgOn ⟨none, none, none, none⟩ envAllow false rfl rfl

/-- Claims of a verified token whose `token_use` is `"id"` rather than
`"access"`. -/
def idClaims : Claims :=
  [("iss", .str "https://issuer.example"), ("token_use", .str "id"),
   ("client_id", .str "client-1")]

/-- Environment whose verification succeeds but yields `idClaims`. -/
def envWrongUse : Env :=
  ⟨.ok idClaims, .ok idClaims, preOK, .completed 0 (some (opaOut (.bool true)))⟩

/-- C7: a verified token whose claims fail identity binding —
`token_use ≠ "access"` or a client identifier different from the
configured client — yields a 401 decision and the policy engine is
never invoked (`opaCalled = false`, `OPA_OK` untouched).  Claims are
values in this embedding, so they cannot be mutated; the 401 body
echoes the offending claim value unchanged. -/
theorem binding_failure_401_no_opa (cfg : Config) (ev : Event) (env : Env) (opaOK : Bool)
    (u c : Claims)
    (henf : cfg.ztaEnforce = true)
    (hauth : pyStartsWith (_auth_header ev) "Bearer " = true)
    (hu : env.unverifiedDecode = .ok u)
    (hiss : jTruthyOpt (jGet u "iss") = true)
    (hv : env.verify = .ok c)
    (hbind : pyEqStr (jGet c "token_use") "access" = false ∨
             pyEqStr (jGet c "client_id") cfg.appClientId = false) :
    (lambda_handler cfg ev env opaOK).response.statusCode = 401 ∧
    (lambda_handler cfg ev env opaOK).trace.opaCalled = false ∧
    (lambda_handler cfg ev env opaOK).opaOK = opaOK := by
  unfold lambda_handler
  by_cases ht : pyEqStr (jGet c "token_use") "access" = true
  · have hc : pyEqStr (jGet c "client_id") cfg.appClientId = false := by
      rcases hbind with hb | hb
      · rw [ht] at hb; exact absurd hb (by simp)
      · exact hb
    simp [henf, hauth, hu, hiss, hv, ht, hc]
  · have ht' : pyEqStr (jGet c "token_use") "access" = false := by
      simpa using ht
    simp [henf, hauth, hu, hiss, hv, ht']

/-- Witness for C7: a verified `token_use = "id"` token is denied 401
without a policy-engine call. -/
theorem binding_failure_401_no_opa_witness :
    (lambda_handler cfgOn evBearer envWrongUse false).response.statusCode = 401 ∧
    (lambda_handler cfgOn evBearer envWrongUse false).trace.opaCalled = false ∧
    (lambda_handler cfgOn evBearer envWrongUse false).opaOK = false :=
  binding_failure_401_no_opa cfgOn evBearer envWrongUse false idClaims idClaims
    rfl rfl rfl rfl rfl (Or.inl rfl)

/-- C4: with enforcement enabled, a 200 decision is produced only when
the whole pipeline completed: the bearer prefix was present, the
unverified issuer parse and the signature verification both succeeded,
both identity-binding checks passed, and `_opa_eval` returned the
verdict `allowed = true`. -/
theorem status200_requires_full_pipeline (cfg : Config) (ev : Event) (env : Env) (opaOK : Bool)
    (henf : cfg.ztaEnforce = true)
    (h200 : (lambda_handler cfg ev env opaOK).response.statusCode = 200) :
    pyStartsWith (_auth_header ev) "Bearer " = true ∧
    (∃ u, env.unverifiedDecode = .ok u ∧ jTruthyOpt (jGet u "iss") = true) ∧
    (∃ c, env.verify = .ok c ∧
      pyEqStr (jGet c "token_use") "access" = true ∧
      pyEqStr (jGet c "client_id") cfg.appClientId = true) ∧
    (_opa_eval opaOK env.preflight env.opaRun).2 = .ok true := by
  unfold lambda_handler at h200
  by_cases hauth : pyStartsWith (_auth_header ev) "Bearer " = true
  case neg =>
    rw [Bool.not_eq_true] at hauth
    simp [henf, hauth] at h200
  case pos =>
  rcases hu : env.unverifiedDecode with e | u
  · rw [hu] at h200
    simp [henf, hauth] at h200
    rcases excResponse_status_mem e with h | h | h <;> omega
  rcases hiss : jTruthyOpt (jGet u "iss") with _ | _
  · rw [hu] at h200; simp [henf, hauth, hiss] at h200
  rcases hv : env.verify with e | c
  · rw [hu, hv] at h200
    simp [henf, hauth, hiss] at h200
    rcases excResponse_status_mem e with h | h | h <;> omega
  rcases ht : pyEqStr (jGet c "token_use") "access" with _ | _
  · rw [hu, hv] at h200; simp [henf, hauth, hiss, ht] at h200
  rcases hc : pyEqStr (jGet c "client_id") cfg.appClientId with _ | _
  · rw [hu, hv] at h200; simp [henf, hauth, hiss, ht, hc] at h200
  refine ⟨hauth, ⟨u, rfl, hiss⟩, ⟨c, rfl, ht, hc⟩, ?_⟩
  rcases heval : _opa_eval opaOK env.preflight env.opaRun with ⟨ok1, r⟩
  rcases r with e | allowed
  · rw [hu, hv, heval] at h200
    simp [henf, hauth, hiss, ht, hc] at h200
    rcases excResponse_status_mem e with h | h | h <;> omega
  rcases allowed with _ | _
  · rw [hu, hv, heval] at h200; simp [henf, hauth, hiss, ht, hc] at h200
  · rfl

/-- Witness for C4: a fully successful request really is a 200. -/
theorem status200_requires_full_pipeline_witness :
    pyStartsWith (_auth_header evBearer) "Bearer " = true ∧
    (∃ u, envAllow.unverifiedDecode = .ok u ∧ jTruthyOpt (jGet u "iss") = true) ∧
    (∃ c, envAllow.verify = .ok c ∧
      pyEqStr (jGet c "token_use") "access" = true ∧
      pyEqStr (jGet c "client_id") cfgOn.appClientId = true) ∧
    (_opa_eval false envAllow.preflight envAllow.opaRun).2 = .ok true :=
  status200_requires_full_pipeline cfgOn evBearer envAllow false rfl rfl

/-- Environment where the policy engine crashes: the `opa eval`
subprocess exits with return code 1. -/
def envCrash : Env := ⟨.ok goodClaims, .ok goodClaims, preOK, .completed 1 none⟩

/-- Environment where the `opa eval` subprocess hits the 3.5 s
timeout. -/
def envTimeout : Env := ⟨.ok goodClaims, .ok goodClaims, preOK, .timeout⟩

/-- Counterexample to C1: an otherwise fully valid request whose
policy-engine process exits non-zero (rc = 1, after a successful
preflight) is answered 500, not the claimed fail-closed 403: the
`RuntimeError("OPA error rc=…")` raised by `_opa_eval` is caught by
the generic `except Exception` clause, not by the 403 timeout
clause. -/
theorem opa_crash_gives_500_not_403 :
    (lambda_handler cfgOn evBearer envCrash true).response.statusCode = 500 ∧
    ¬ (lambda_handler cfgOn evBearer envCrash true).response.statusCode = 403 ∧
    ¬ (lambda_handler cfgOn evBearer envCrash true).response.statusCode = 200 :=
  ⟨rfl, by decide, by decide⟩

/-- C1 amended: once a valid, bound request reaches the policy engine
(preflight already passed, `OPA_OK = true`), a subprocess timeout is
answered 403 (`"Denied by policy (OPA timeout)"`, fail-closed) but a
non-zero engine exit is answered 500 (`"Internal error"`); neither is
ever 200. -/
theorem opa_invocation_failure_modes (cfg : Config) (ev : Event) (env : Env)
    (u c : Claims)
    (henf : cfg.ztaEnforce = true)
    (hauth : pyStartsWith (_auth_header ev) "Bearer " = true)
    (hu : env.unverifiedDecode = .ok u)
    (hiss : jTruthyOpt (jGet u "iss") = true)
    (hv : env.verify = .ok c)
    (ht : pyEqStr (jGet c "token_use") "access" = true)
    (hc : pyEqStr (jGet c "client_id") cfg.appClientId = true) :
    (env.opaRun = .timeout →
      (lambda_handler cfg ev env true).response = ⟨403, .opaTimeout⟩) ∧
    (∀ rc out, env.opaRun = .completed rc out → rc ≠ 0 →
      (lambda_handler cfg ev env true).response = ⟨500, .internalError⟩) := by
  constructor
  · intro hrun
    unfold lambda_handler
    simp [henf, hauth, hu, hiss, hv, ht, hc, _opa_eval, _opa_preflight, hrun, excResponse]
  · intro rc out hrun hrc
    unfold lambda_handler
    simp [henf, hauth, hu, hiss, hv, ht, hc, _opa_eval, _opa_preflight, hrun, hrc, excResponse]

/-- Witness for C1 (amended): the timeout case at a concrete input. -/
theorem opa_invocation_failure_modes_witness :
    (lambda_handler cfgOn evBearer envTimeout true).response = ⟨403, .opaTimeout⟩ :=
  (opa_invocation_failure_modes cfgOn evBearer envTimeout goodClaims goodClaims
    rfl rfl rfl rfl rfl rfl rfl).1 rfl

/-- Preflight environment in which the engine binary is missing:
`os.stat` raises `OSError`. -/
def preMissing : PreflightEnv := ⟨none, none, false⟩

/-- Environment of a valid request processed while the preflight
fails (binary missing). -/
def envPreflightFail : Env :=
  ⟨.ok goodClaims, .ok goodClaims, preMissing, .completed 0 (some (opaOut (.bool true)))⟩

/-- Counterexample to C2: with the engine binary missing at preflight
(`OPA_OK = false`), an otherwise fully valid request is answered 500,
not the claimed 403: `_opa_preflight` re-raises every failure as a
`RuntimeError`, which the handler's generic `except Exception` clause
maps to 500. -/
theorem preflight_failure_gives_500_not_403 :
    (lambda_handler cfgOn evBearer envPreflightFail false).response.statusCode = 500 ∧
    ¬ (lambda_handler cfgOn evBearer envPreflightFail false).response.statusCode = 403 ∧
    ¬ (lambda_handler cfgOn evBearer envPreflightFail false).response.statusCode = 200 :=
  ⟨rfl, by decide, by decide⟩

/-- Every preflight failure mode listed by C2 — binary missing, binary
not executable, `opa version` unresponsive or exiting non-zero, policy
bundle absent — makes `_opa_preflight` raise a `RuntimeError`
(`Exc.other`) and leave `OPA_OK` false. -/
theorem opa_preflight_failure_modes (pre : PreflightEnv)
    (hfail : pre.statMode = none ∨
      (∃ m, pre.statMode = some m ∧ m &&& 0o111 = 0) ∨
      pre.versionRC = none ∨
      (∃ rc, pre.versionRC = some rc ∧ rc ≠ 0) ∨
      pre.policyExists = false) :
    ∃ s, _opa_preflight false pre = (false, .error (.other s)) := by
  obtain ⟨sm, vr, pe⟩ := pre
  simp only at hfail
  rcases sm with _ | m
  · exact ⟨"OPA preflight failed: stat", rfl⟩
  by_cases hm : m &&& 0o111 = 0
  · exact ⟨"OPA preflight failed: opa/opa is not executable",
      by simp [_opa_preflight, hm]⟩
  rcases vr with _ | rc
  · exact ⟨"OPA preflight failed: TimeoutExpired", by simp [_opa_preflight, hm]⟩
  by_cases hrc : rc = 0
  · subst hrc
    have hpe : pe = false := by
      rcases hfail with h | ⟨m', hm', hbit⟩ | h | ⟨rc', hrc', hne⟩ | h
      · exact absurd h (by simp)
      · rw [Option.some_inj] at hm'; subst hm'; exact absurd hbit hm
      · exact absurd h (by simp)
      · rw [Option.some_inj] at hrc'; subst hrc'; exact absurd rfl hne
      · exact h
    subst hpe
    exact ⟨"OPA preflight failed: policy not found", by simp [_opa_preflight, hm]⟩
  · exact ⟨"OPA preflight failed: opa version rc", by simp [_opa_preflight, hm, hrc]⟩

/-- C2 amended: a valid, bound request processed while the one-time
preflight fails (any of the four failure modes) is answered 500
(`"Internal error"`), never 200 and never 403; the handler returns
normally (it is a total function, so it cannot crash) and `OPA_OK`
stays false, so the system is never marked ready by a failed check. -/
theorem preflight_failure_denies_500 (cfg : Config) (ev : Event) (env : Env)
    (u c : Claims)
    (henf : cfg.ztaEnforce = true)
    (hauth : pyStartsWith (_auth_header ev) "Bearer " = true)
    (hu : env.unverifiedDecode = .ok u)
    (hiss : jTruthyOpt (jGet u "iss") = true)
    (hv : env.verify = .ok c)
    (ht : pyEqStr (jGet c "token_use") "access" = true)
    (hc : pyEqStr (jGet c "client_id") cfg.appClientId = true)
    (hfail : env.preflight.statMode = none ∨
      (∃ m, env.preflight.statMode = some m ∧ m &&& 0o111 = 0) ∨
      env.preflight.versionRC = none ∨
      (∃ rc, env.preflight.versionRC = some rc ∧ rc ≠ 0) ∨
      env.preflight.policyExists = false) :
    (lambda_handler cfg ev env false).response = ⟨500, .internalError⟩ ∧
    (lambda_handler cfg ev env false).opaOK = false := by
  obtain ⟨s, hpre⟩ := opa_preflight_failure_modes env.preflight hfail
  have heval : _opa_eval false env.preflight env.opaRun =
      (false, .error (.other s)) := by
    unfold _opa_eval
    rw [hpre]
  unfold lambda_handler
  simp [henf, hauth, hu, hiss, hv, ht, hc, heval, excResponse]

/-- Witness for C2 (amended): the missing-binary case at a concrete
input. -/
theorem preflight_failure_denies_500_witness :
    (lambda_handler cfgOn evBearer envPreflightFail false).response = ⟨500, .internalError⟩ ∧
    (lambda_handler cfgOn evBearer envPreflightFail false).opaOK = false :=
  preflight_failure_denies_500 cfgOn evBearer envPreflightFail goodClaims goodClaims
    rfl rfl rfl rfl rfl rfl rfl (Or.inl rfl)

/-- Environment where the engine exits zero and the decision path
holds the (truthy, non-boolean) string `"yes"`. -/
def envTruthyStr : Env :=
  ⟨.ok goodClaims, .ok goodClaims, preOK, .completed 0 (some (opaOut (.str "yes")))⟩

/-- Environment where the engine exits zero but its stdout is not
valid JSON. -/
def envBadJson : Env :=
  ⟨.ok goodClaims, .ok goodClaims, preOK, .completed 0 none⟩

/-- Counterexample to C3: the engine exits zero with the non-boolean
value `"yes"` at the decision path (`opaResultValue` finds a string,
not a boolean), yet the request is answered 200: `bool(...)` coerces
any truthy value to an allow instead of rejecting a malformed
result. -/
theorem nonbool_result_allows_200 :
    opaResultValue (opaOut (.str "yes")) = some (.str "yes") ∧
    (lambda_handler cfgOn evBearer envTruthyStr true).response.statusCode = 200 :=
  ⟨rfl, rfl⟩

/-- C3 amended: when a valid, bound request reaches an engine run that
exits zero (preflight already passed), a stdout that is not valid JSON
or has no value at the decision path is answered 500 (a generic
internal error, not an allow); but a value that is present is coerced
with Python truthiness, so a truthy non-boolean is treated as allow
(200) and a falsy one as deny (403). -/
theorem zero_exit_result_parsing (cfg : Config) (ev : Event) (env : Env)
    (u c : Claims)
    (henf : cfg.ztaEnforce = true)
    (hauth : pyStartsWith (_auth_header ev) "Bearer " = true)
    (hu : env.unverifiedDecode = .ok u)
    (hiss : jTruthyOpt (jGet u "iss") = true)
    (hv : env.verify = .ok c)
    (ht : pyEqStr (jGet c "token_use") "access" = true)
    (hc : pyEqStr (jGet c "client_id") cfg.appClientId = true) :
    (env.opaRun = .completed 0 none →
      (lambda_handler cfg ev env true).response = ⟨500, .internalError⟩) ∧
    (∀ out, env.opaRun = .completed 0 (some out) → opaResultValue out = none →
      (lambda_handler cfg ev env true).response = ⟨500, .internalError⟩) ∧
    (∀ out v, env.opaRun = .completed 0 (some out) → opaResultValue out = some v →
      (lambda_handler cfg ev env true).response.statusCode =
        if v.truthy then 200 else 403) := by
  refine ⟨?_, ?_, ?_⟩
  · intro hrun
    unfold lambda_handler
    simp [henf, hauth, hu, hiss, hv, ht, hc, _opa_eval, _opa_preflight, hrun, excResponse]
  · intro out hrun hval
    unfold lambda_handler
    simp [henf, hauth, hu, hiss, hv, ht, hc, _opa_eval, _opa_preflight, hrun, hval,
      excResponse]
  · intro out v hrun hval
    unfold lambda_handler
    rcases htr : v.truthy with _ | _ <;>
      simp [henf, hauth, hu, hiss, hv, ht, hc, _opa_eval, _opa_preflight, hrun, hval, htr]

/-- Witness for C3 (amended): unparsable stdout at a concrete input
yields the 500 internal-error response. -/
theorem zero_exit_result_parsing_witness :
    (lambda_handler cfgOn evBearer envBadJson true).response = ⟨500, .internalError⟩ :=
  (zero_exit_result_parsing cfgOn evBearer envBadJson goodClaims goodClaims
    rfl rfl rfl rfl rfl rfl rfl).1 rfl

/-- The fixed, parameter-free failing bodies. -/
def FixedFailingBody (b : Body) : Prop :=
  b = .missingBearer ∨ b = .missingIss ∨ b = .tokenExpired ∨
  b = .deniedByPolicy ∨ b = .opaTimeout ∨ b = .internalError

/-- Every handler outcome is either a 200 or carries one of the
failing body shapes. -/
theorem body_status_cases (cfg : Config) (ev : Event) (env : Env) (opaOK : Bool) :
    (lambda_handler cfg ev env opaOK).response.statusCode = 200 ∨
    (FixedFailingBody (lambda_handler cfg ev env opaOK).response.body ∨
      (∃ m, (lambda_handler cfg ev env opaOK).response.body = .invalidToken m) ∨
      (∃ v, (lambda_handler cfg ev env opaOK).response.body = .wrongTokenType v) ∨
      (∃ v, (lambda_handler cfg ev env opaOK).response.body = .clientMismatch v)) := by
  unfold lambda_handler
  repeat' split
  all_goals try simp [FixedFailingBody]
  all_goals (rename_i e _; cases e <;> simp [excResponse, FixedFailingBody])

/-- Environment where verification fails with
`InvalidTokenError("boom")`. -/
def envInvalidTok : Env :=
  ⟨.ok goodClaims, .error (.invalidToken "boom"), preOK, .completed 0 none⟩

/-- Environment where verification fails with
`InvalidTokenError("zap")`. -/
def envInvalidTok2 : Env :=
  ⟨.ok goodClaims, .error (.invalidToken "zap"), preOK, .completed 0 none⟩

/-- Counterexample to C5: the 401 body of the `InvalidTokenError`
clause is `"Invalid token: " + str(e)` — two requests differing only
in the exception text get different response bodies, so the raw
exception text reaches the HTTP response body rather than staying in
the logs. -/
theorem invalid_token_body_leaks_exception_text :
    (lambda_handler cfgOn evBearer envInvalidTok true).response.statusCode = 401 ∧
    (lambda_handler cfgOn evBearer envInvalidTok true).response.body.message =
      "Invalid token: boom" ∧
    (lambda_handler cfgOn evBearer envInvalidTok2 true).response.body.message =
      "Invalid token: zap" :=
  ⟨rfl, rfl, rfl⟩

/-- C5 amended: every failing (non-200) response body is one of the
fixed classification messages — `"Missing Bearer token"`, `"Missing
iss claim"`, `"Token expired"`, `"Denied by policy"`, `"Denied by
policy (OPA timeout)"`, `"Internal error"` — except that the
invalid-token 401 body embeds the exception string `str(e)` and the
two binding 401 bodies echo the offending claim value. In particular
the unclassified-exception 500 body is the fixed `"Internal error"`
(subprocess stderr and exception detail go only to the log
`print`s). -/
theorem failing_body_classification (cfg : Config) (ev : Event) (env : Env) (opaOK : Bool)
    (hfail : (lambda_handler cfg ev env opaOK).response.statusCode ≠ 200) :
    FixedFailingBody (lambda_handler cfg ev env opaOK).response.body ∨
    (∃ m, (lambda_handler cfg ev env opaOK).response.body = .invalidToken m) ∨
    (∃ v, (lambda_handler cfg ev env opaOK).response.body = .wrongTokenType v) ∨
    (∃ v, (lambda_handler cfg ev env opaOK).response.body = .clientMismatch v) := by
  rcases body_status_cases cfg ev env opaOK with h | h
  · exact absurd h hfail
  · exact h

/-- Witness for C5 (amended): the 500 response to an engine crash has
the fixed `"Internal error"` body. -/
theorem failing_body_classification_witness :
    FixedFailingBody (lambda_handler cfgOn evBearer envCrash true).response.body ∨
    (∃ m, (lambda_handler cfgOn evBearer envCrash true).response.body = .invalidToken m) ∨
    (∃ v, (lambda_handler cfgOn evBearer envCrash true).response.body = .wrongTokenType v) ∨
    (∃ v, (lambda_handler cfgOn evBearer envCrash true).response.body = .clientMismatch v) :=
  failing_body_classification cfgOn evBearer envCrash true (by decide)

/-- The event `evBearer` with the header name spelled `AUTHORIZATION`;
it differs from `evBearer` only in the casing of that name. -/
def evUpperAuth : Event :=
  ⟨some [("AUTHORIZATION", "Bearer tok")], some "/items", some "GET", none⟩

/-- Counterexample to C8: header retrieval is not case-insensitive.
`_auth_header` looks up exactly the two spellings `"Authorization"`
and `"authorization"`, so the casing `"AUTHORIZATION"` is not found:
the extracted credential differs (`""` vs `"Bearer tok"`) and so does
the gateway decision (401 vs 200) for events identical up to the
header name's casing. -/
theorem auth_header_not_case_insensitive :
    _auth_header evUpperAuth = "" ∧
    _auth_header evBearer = "Bearer tok" ∧
    (lambda_handler cfgOn evUpperAuth envAllow true).response.statusCode = 401 ∧
    (lambda_handler cfgOn evBearer envAllow true).response.statusCode = 200 :=
  ⟨rfl, rfl, rfl, rfl⟩

/-- C8 amended: the credential is retrieved by exact lookup of
`"Authorization"` and then `"authorization"`; only those two spellings
are supported, and for them the extracted credential and the whole
gateway decision agree. -/
theorem auth_header_two_casings_agree (v : String) (hv : v ≠ "")
    (rp m st : Option String) (cfg : Config) (env : Env) (opaOK : Bool) :
    _auth_header ⟨some [("Authorization", v)], rp, m, st⟩ = v ∧
    _auth_header ⟨some [("authorization", v)], rp, m, st⟩ = v ∧
    lambda_handler cfg ⟨some [("Authorization", v)], rp, m, st⟩ env opaOK =
      lambda_handler cfg ⟨some [("authorization", v)], rp, m, st⟩ env opaOK := by
  have h1 : _auth_header ⟨some [("Authorization", v)], rp, m, st⟩ = v := by
    simp [_auth_header, pyOr, hv]
  have h2 : _auth_header ⟨some [("authorization", v)], rp, m, st⟩ = v := by
    simp [_auth_header, pyOr, hv, List.lookup]
  have hn : _normalize_path (⟨some [("Authorization", v)], rp, m, st⟩ : Event) =
      _normalize_path (⟨some [("authorization", v)], rp, m, st⟩ : Event) := rfl
  refine ⟨h1, h2, ?_⟩
  unfold lambda_handler
  rw [h1, h2, hn]

/-- Witness for C8 (amended) at the concrete credential
`"Bearer tok"`. -/
theorem auth_header_two_casings_agree_witness :
    _auth_header ⟨some [("Authorization", "Bearer tok")], some "/items", some "GET", none⟩ =
      "Bearer tok" ∧
    _auth_header ⟨some [("authorization", "Bearer tok")], some "/items", some "GET", none⟩ =
      "Bearer tok" ∧
    lambda_handler cfgOn
        ⟨some [("Authorization", "Bearer tok")], some "/items", some "GET", none⟩
        envAllow true =
      lambda_handler cfgOn
        ⟨some [("authorization", "Bearer tok")], some "/items", some "GET", none⟩
        envAllow true :=
  auth_header_two_casings_agree "Bearer tok" (by decide)
    (some "/items") (some "GET") none cfgOn envAllow true

/-- The request-normalization contract as the claim words it: the
method, upper-cased, defaulting to `GET` when absent; and the path
with the leading `/<stage>` prefix removed when a stage is present and
the raw path begins with it — the result defaulting to `/` when the
removal yields an empty string — and the raw path kept unchanged
otherwise. -/
def normalizeSpec (method stage : Option String) (rawPath : String) : String × String :=
  (pyUpper (method.getD "GET"),
    match stage with
    | some s =>
      if pyStartsWith rawPath ("/" ++ s) then
        if pyDrop rawPath (pyLen s + 1) = "" then "/"
        else pyDrop rawPath (pyLen s + 1)
      else rawPath
    | none => rawPath)

/-- Counterexample to C9: an inbound event whose method is present but
empty. The code's Python `or` treats the empty string like an absent
value and falls back to `"GET"`, while the claim's wording defaults
only "when absent" and would upper-case the empty method to `""`: at
this event `_normalize_path` and the claim-worded `normalizeSpec`
disagree. -/
theorem normalize_path_differs_on_empty_method :
    _normalize_path ⟨none, some "/items", some "", none⟩ = ("GET", "/items") ∧
    normalizeSpec (some "") none "/items" = ("", "/items") ∧
    ("GET" : String) ≠ "" :=
  ⟨rfl, rfl, by decide⟩

/-- The request-normalization contract with the amendments Python
falsiness forces: the method defaults to `GET` when absent or empty;
the raw path defaults to `/` when absent or empty; the `/<stage>`
prefix is removed only when a non-empty stage is present and the
(defaulted) raw path begins with it, the result defaulting to `/` when
the removal yields an empty string, the raw path kept unchanged
otherwise. -/
def normalizeSpecAmended (method stage rawPath : Option String) : String × String :=
  let m := match method with
    | some s => if s = "" then "GET" else s
    | none => "GET"
  let p := match rawPath with
    | some s => if s = "" then "/" else s
    | none => "/"
  (pyUpper m,
    match stage with
    | some s =>
      if s ≠ "" ∧ pyStartsWith p ("/" ++ s) then
        if pyDrop p (pyLen s + 1) = "" then "/"
        else pyDrop p (pyLen s + 1)
      else p
    | none => p)

/-- C9 amended: on every inbound event, without exception,
normalization succeeds (`_normalize_path` is total) and returns
exactly the amended contract: method upper-cased and defaulted to
`GET` when absent or empty, raw path defaulted to `/` when absent or
empty, the `/<stage>` prefix stripped only for a present non-empty
stage, with `/` replacing an empty remainder. -/
theorem normalize_path_matches_amended_claim (ev : Event) :
    _normalize_path ev = normalizeSpecAmended ev.method ev.stage ev.rawPath := by
  obtain ⟨hd, rp, m, st⟩ := ev
  rcases st with _ | ss
  · rcases m with _ | mm <;> rcases rp with _ | pp <;>
      simp [_normalize_path, normalizeSpecAmended, pyOr]
  · by_cases hss : ss = "" <;>
      rcases m with _ | mm <;> rcases rp with _ | pp <;>
        simp [_normalize_path, normalizeSpecAmended, pyOr, hss] <;>
        split_ifs <;> rfl

end ZTA
